import Mathlib

/-!
# Verification of the call-processing pipeline (`backend/app/services/processing_service.py`)

This file is a shallow embedding, in Lean 4, of the core of the asynchronous
call-processing pipeline of the repository: the transcription retry loop, the
heuristic speaker-change detector, the three insight-generation tiers, the
language-code normalizer, the `process_call` orchestration (modelled as a
state-transition function over an explicit database state, with the external
effects — S3, the Whisper service, the LLM, and database-write failures —
supplied by an explicit environment), the post-processing safety pass and
`validate_insights_exist`.

Conventions of the embedding:
* Python `str` is Lean `String`; `s.lower()` is `pyLower`, `s.strip()` is
  `pyStrip`, `a in s` (substring test) is `strContains`, `s.split(sep)` is
  `String.splitOn`, `s[:n]` is `pyTake`, `s.count(c)` is `countChar`,
  `s.replace(a, b)` is `pyReplace`, `s.startswith(p)` is `pyStartsWith`.
* Python ints that carry scores are `Int`; counts and lengths are `Nat` and are
  cast where they enter score arithmetic; Python floats (segment timestamps and
  `talk_time_ratio`) are modelled as `ℚ` — every float operation the source
  performs on them (comparison, min/max, division of nonnegative values) is
  exact at these magnitudes, so no rounding behaviour is lost.
* A raised Python exception is an `Except.error` carrying the message string
  (all the exceptions the service itself raises are `ValueError`s built from
  message strings).
* Database sessions are modelled as explicit state passing over `PipelineDB`;
  a write that the source lets fail (and handles) is controlled by a Boolean
  in the environment `ProcEnv`.
-/

/-! ## String utilities mirroring the Python primitives -/

/-- `charsPrefix p l` : `p` is a prefix of `l` (Python `startswith` on char lists). -/
def charsPrefix : List Char → List Char → Bool
  | [], _ => true
  | _ :: _, [] => false
  | a :: as, b :: bs => a == b && charsPrefix as bs

/-- `charsInfix p l` : `p` occurs as a contiguous sublist of `l` (Python `in`). -/
def charsInfix (p : List Char) : List Char → Bool
  | [] => charsPrefix p []
  | l@(_ :: rest) => charsPrefix p l || charsInfix p rest

/-- Python `pat in s` (substring containment). -/
def strContains (s pat : String) : Bool :=
  charsInfix pat.data s.data

/-- Python `s.lower()` (ASCII case folding, which is all the source's lexicons need). -/
def pyLower (s : String) : String :=
  String.mk (s.data.map Char.toLower)

/-- Python `s.count(c)` for a single character `c`. -/
def countChar (s : String) (c : Char) : Nat :=
  (s.data.filter (· == c)).length

/-- Python `s[:n]` (prefix slice). -/
def pyTake (s : String) (n : Nat) : String :=
  String.mk (s.data.take n)

/-- Python `s.startswith(pre)`. -/
def pyStartsWith (s pre : String) : Bool :=
  charsPrefix pre.data s.data

/-- Python `s.strip()`: drop leading and trailing whitespace. -/
def pyStrip (s : String) : String :=
  String.mk (((s.data.dropWhile Char.isWhitespace).reverse.dropWhile Char.isWhitespace).reverse)

/-- Worker for `pyReplace`; `fuel` bounds the recursion (the input length
suffices since each step consumes at least one character for a non-empty
pattern). -/
def replaceAux (pat rep : List Char) : Nat → List Char → List Char
  | 0, l => l
  | _ + 1, [] => []
  | fuel + 1, c :: rest =>
      if charsPrefix pat (c :: rest) then
        rep ++ replaceAux pat rep fuel ((c :: rest).drop pat.length)
      else c :: replaceAux pat rep fuel rest

/-- Python `s.replace(pat, rep)` (non-overlapping, left to right; `pat`
non-empty at every call site). -/
def pyReplace (s pat rep : String) : String :=
  String.mk (replaceAux pat.data rep.data (s.data.length + 1) s.data)

/-! ## `_normalize_language_code` (processing_service.py:1307-1357) -/

/-- The `language_mapping` dict of `_normalize_language_code`, in insertion
order (Python dicts iterate in insertion order). -/
def languageMapping : List (String × String) :=
  [("en", "en"), ("english", "en"), ("eng", "en"),
   ("ar", "ar"), ("arabic", "ar"), ("ara", "ar"),
   ("es", "es"), ("spanish", "es"),
   ("fr", "fr"), ("french", "fr"),
   ("de", "de"), ("german", "de"),
   ("zh", "zh"), ("chinese", "zh"),
   ("hi", "hi"), ("hindi", "hi"),
   ("pt", "pt"), ("portuguese", "pt")]

/-- The loop `for key, value in language_mapping.items(): if
language_clean.startswith(key) or key in language_clean: return value`. -/
def firstAliasMatch (clean : String) : List (String × String) → Option String
  | [] => none
  | (k, v) :: rest =>
      if pyStartsWith clean k || strContains clean k then some v
      else firstAliasMatch clean rest

/-- Exact-key lookup, `if language_clean in language_mapping`. -/
def exactAliasLookup (clean : String) : List (String × String) → Option String
  | [] => none
  | (k, v) :: rest => if clean == k then some v else exactAliasLookup clean rest

/-- `ProcessingService._normalize_language_code`. `none` models Python `None`. -/
def normalizeLanguageCode : Option String → Option String
  | none => none
  | some language =>
      let languageClean := pyStrip (pyLower language)
      if languageClean = "" then none
      else
        match exactAliasLookup languageClean languageMapping with
        | some v => some v
        | none =>
            match firstAliasMatch languageClean languageMapping with
            | some v => some v
            | none => some languageClean

/-! ## Speaker segmentation (processing_service.py:1487-1608) -/

/-- A Whisper segment: start/end timestamps (seconds) and text. -/
structure Segment where
  start : ℚ
  «end» : ℚ
  text : String
deriving Repr, DecidableEq

/-- The `question_indicators` lexicon of `_is_question_pattern`. -/
def questionIndicators : List String :=
  ["?", "how", "what", "when", "where", "why", "who", "can you", "could you",
   "would you", "do you", "are you", "is it", "was it", "will you"]

/-- The `greeting_indicators` lexicon of `_is_greeting_pattern`. -/
def greetingIndicators : List String :=
  ["hello", "hi", "hey", "good morning", "good afternoon", "good evening",
   "thanks", "thank you", "bye", "goodbye", "see you", "talk to you"]

/-- The `response_indicators` lexicon of `_is_response_pattern`. -/
def responseIndicators : List String :=
  ["yes", "no", "okay", "ok", "sure", "absolutely", "definitely",
   "of course", "certainly", "i see", "i understand", "that sounds"]

/-- `any(indicator in text_lower for indicator in indicators)` where
`text_lower = text.lower().strip()`. -/
def matchesLexicon (text : String) (indicators : List String) : Bool :=
  indicators.any (fun ind => strContains (pyStrip (pyLower text)) ind)

/-- `ProcessingService._is_question_pattern`. -/
def isQuestionPattern (text : String) : Bool :=
  matchesLexicon text questionIndicators

/-- `ProcessingService._is_greeting_pattern`. -/
def isGreetingPattern (text : String) : Bool :=
  matchesLexicon text greetingIndicators

/-- `ProcessingService._is_response_pattern`. -/
def isResponsePattern (text : String) : Bool :=
  matchesLexicon text responseIndicators

/-- `ProcessingService._detect_speaker_change`: given the segment list and the
index of the current segment, decide whether the speaker flips before it.
The source returns `False` for the first segment and combines five cues with
logical or; an index out of range corresponds to the source's `except` branch
returning `False` (unreachable from `_analyze_speaker_changes`). -/
def detectSpeakerChange (allSegments : List Segment) (segmentIndex : Nat) : Bool :=
  if segmentIndex = 0 then false
  else
    match allSegments[segmentIndex]?, allSegments[segmentIndex - 1]? with
    | some currentSegment, some prevSegment =>
        let gap := currentSegment.start - prevSegment.«end»
        -- 1. Large time gap (more than 2 seconds)
        (gap > 2)
        -- 2. Question patterns (often indicate speaker change)
        || (isQuestionPattern currentSegment.text || isQuestionPattern prevSegment.text)
        -- 3. Greeting patterns
        || (isGreetingPattern currentSegment.text || isGreetingPattern prevSegment.text)
        -- 4. Response indicators
        || isResponsePattern currentSegment.text
        -- 5. Length-based analysis (short responses often indicate different speaker)
        || ((pyStrip currentSegment.text).length < 20 && gap > 0.5)
    | _, _ => false

/-- `if current_speaker == "Speaker 1": current_speaker = "Speaker 2" else: ... = "Speaker 1"`. -/
def flipSpeaker (s : String) : String :=
  if s = "Speaker 1" then "Speaker 2" else "Speaker 1"

/-- The speaker label `_analyze_speaker_changes` assigns to segment `i`: the
loop starts with `current_speaker = "Speaker 1"` and flips it whenever
`_detect_speaker_change` fires for the segment being visited. -/
def speakerLabel (segments : List Segment) : Nat → String
  | 0 => if detectSpeakerChange segments 0 then flipSpeaker "Speaker 1" else "Speaker 1"
  | i + 1 =>
      let prev := speakerLabel segments i
      if detectSpeakerChange segments (i + 1) then flipSpeaker prev else prev

/-- A labelled segment as produced by `_analyze_speaker_changes`. -/
structure SpeakerSegment where
  speaker : String
  startTime : ℚ
  endTime : ℚ
  text : String
deriving Repr, DecidableEq

/-- `ProcessingService._analyze_speaker_changes`: label every segment with the
alternating speaker, strip its text (the source stores `text.strip()`). -/
def analyzeSpeakerChanges (segments : List Segment) : List SpeakerSegment :=
  (List.range segments.length).filterMap fun i =>
    match segments[i]? with
    | some seg =>
        some { speaker := speakerLabel segments i
               startTime := seg.start
               endTime := seg.«end»
               text := pyStrip seg.text }
    | none => none

/-! ## `_analyze_speakers_in_transcript` (processing_service.py:1658-1764)

Only the outputs the fallback generator reads (`total_speakers`,
`talk_time_ratio`, `speaker_turns`, `most_active_speaker`) are kept; the
`words` statistic and `speaker_distribution`/`longest_speaker` entries are
computed by the source but never consumed. -/

/-- `line.split(':', 1)[0]`: everything before the first `:` (the line is
guaranteed to contain one at the call site). -/
def beforeFirstColon (line : String) : String :=
  ((line.splitOn ":").headD line)

/-- `line.split(':', 1)[1]`: everything after the first `:`, later colons kept. -/
def afterFirstColon (line : String) : String :=
  String.intercalate ":" ((line.splitOn ":").drop 1)

/-- `if current_speaker and current_text: speaker_segments.append({...})`;
a stored segment is `(speaker, ' '.join(current_text))`. -/
def pushSpeakerSegment (acc : List (String × String)) (cur : Option String)
    (parts : List String) : List (String × String) :=
  match cur with
  | some sp => if sp ≠ "" ∧ parts ≠ [] then acc ++ [(sp, String.intercalate " " parts)] else acc
  | none => acc

/-- One iteration of the `for line in lines` loop of
`_analyze_speakers_in_transcript`; state is (accumulated segments,
current speaker, current text parts). -/
def speakerLineStep (st : List (String × String) × Option String × List String)
    (rawLine : String) : List (String × String) × Option String × List String :=
  let (acc, cur, parts) := st
  let line := pyStrip rawLine
  if line = "" then st
  else if pyStartsWith line "Speaker 1:" || pyStartsWith line "Speaker 2:" then
    let acc1 := pushSpeakerSegment acc cur parts
    let speakerPart := pyStrip (beforeFirstColon line)
    let parts1 := if strContains line ":" then [pyStrip (afterFirstColon line)] else []
    (acc1, some speakerPart, parts1)
  else
    match cur with
    | some _ => (acc, cur, parts ++ [line])
    | none => (acc, cur, parts)

/-- The parsed `speaker_segments` list of `_analyze_speakers_in_transcript`. -/
def parseSpeakerSegments (transcript : String) : List (String × String) :=
  let (acc, cur, parts) := (transcript.splitOn "\n").foldl speakerLineStep ([], none, [])
  pushSpeakerSegment acc cur parts

/-- `speaker_stats[speaker]['total_length'] += segment['length']`, keeping the
dict's insertion order. -/
def addSpeakerLength (stats : List (String × Nat)) (sp : String) (len : Nat) :
    List (String × Nat) :=
  match stats with
  | [] => [(sp, len)]
  | (s, n) :: rest =>
      if s = sp then (s, n + len) :: rest else (s, n) :: addSpeakerLength rest sp len

/-- Assoc lookup in the stats dict. -/
def lookupSpeakerLength (stats : List (String × Nat)) (sp : String) : Option Nat :=
  match stats with
  | [] => none
  | (s, n) :: rest => if s = sp then some n else lookupSpeakerLength rest sp

/-- Python `max(items, key=total_length)`: the first entry attaining the
maximal total length (`max` only replaces on a strictly greater key). -/
def firstMaxByLength : List (String × Nat) → Option (String × Nat)
  | [] => none
  | x :: rest =>
      match firstMaxByLength rest with
      | none => some x
      | some y => if y.2 > x.2 then some y else some x

/-- The outputs of `_analyze_speakers_in_transcript` that the fallback
generator consumes. -/
structure SpeakerAnalysis where
  totalSpeakers : Nat
  talkTimeRatio : ℚ
  speakerTurns : Nat
  mostActiveSpeaker : Option String
deriving Repr, DecidableEq

/-- `ProcessingService._analyze_speakers_in_transcript`. -/
def analyzeSpeakersInTranscript (transcript : String) : SpeakerAnalysis :=
  if strContains transcript "Speaker 1:" || strContains transcript "Speaker 2:" then
    let segs := parseSpeakerSegments transcript
    if segs ≠ [] then
      let stats := segs.foldl (fun st s => addSpeakerLength st s.1 s.2.length) []
      let ratio :=
        match lookupSpeakerLength stats "Speaker 1", lookupSpeakerLength stats "Speaker 2" with
        | some s1, some s2 =>
            if s1 + s2 > 0 then (s1 : ℚ) / ((s1 : ℚ) + (s2 : ℚ)) else 0.5
        | _, _ => 0.5
      { totalSpeakers := stats.length
        talkTimeRatio := ratio
        speakerTurns := segs.length
        mostActiveSpeaker := (firstMaxByLength stats).map (·.1) }
    else ⟨0, 0.5, 0, none⟩
  else ⟨0, 0.5, 0, none⟩

/-! ## The insights record (models.py `InsightsCreate` as populated by the
three generation tiers; `objection_handling`/`closing_attempts` are set by no
tier and omitted, `interruption_count`/`silence_periods` are left `None` by
the GPT tier and are therefore `Option Int`) -/

/-- `SentimentType` (models.py). -/
inductive Sentiment
  | positive
  | negative
  | neutral
deriving Repr, DecidableEq

/-- The BANT sub-score dict `{"budget": _, "authority": _, "need": _, "timeline": _}`. -/
structure BantScores where
  budget : Int
  authority : Int
  need : Int
  timeline : Int
deriving Repr, DecidableEq

/-- An insights record as built by `_generate_gpt_insights`,
`_generate_enhanced_fallback_insights` or `_create_emergency_insights`. -/
structure InsightsRecord where
  callId : Int
  summary : String
  sentiment : Sentiment
  keyTopics : List String
  satisfactionScore : Int
  improvementAreas : List String
  actionItems : List String
  overallScore : Int
  talkTimeRatio : ℚ
  questionEffectiveness : Int
  engagementScore : Int
  commitmentLevel : String
  conversationPace : String
  interruptionCount : Option Int
  silencePeriods : Option Int
  bantQualification : BantScores
  valuePropositionScore : Int
  trustBuildingMoments : List String
  interestIndicators : List String
  concernIndicators : List String
  dealProbability : Int
  followUpUrgency : String
  upsellOpportunities : List String
deriving Repr, DecidableEq

/-! ## `_generate_enhanced_fallback_insights` (processing_service.py:2405-2688) -/

/-- The `positive_indicators` lexicon (duplicates kept: they double-count). -/
def fbPositiveIndicators : List String :=
  ["yes", "great", "excellent", "perfect", "interested", "sounds good", "definitely", "sure",
   "love", "amazing", "fantastic", "wonderful", "impressed", "excited", "looking forward",
   "definitely interested", "sounds perfect", "exactly what we need", "this is great",
   "absolutely", "sounds amazing", "very interested", "excited about", "perfect for us",
   "exactly what we\x27re looking for", "this looks great", "impressive", "wonderful"]

/-- The `negative_indicators` lexicon. -/
def fbNegativeIndicators : List String :=
  ["no", "not interested", "expensive", "too much", "busy", "not now", "maybe later",
   "not sure", "don\x27t think", "not right", "too expensive", "not for us", "not ready",
   "not a good fit", "not what we need", "too complicated", "not interested",
   "can\x27t afford", "budget constraints", "not the right time", "not suitable",
   "doesn\x27t work for us", "not what we\x27re looking for"]

/-- The `neutral_indicators` lexicon. -/
def fbNeutralIndicators : List String :=
  ["maybe", "possibly", "let me think", "not sure", "need to discuss", "have to check",
   "might be", "could be", "depends", "we\x27ll see", "let me get back", "need more info",
   "have to consider", "will think about it", "need to review"]

/-- `sum(w if phrase in text_lower else 0 for phrase in phrases)`. -/
def weightedHits (textLower : String) (w : Nat) : List String → Nat
  | [] => 0
  | p :: ps => (if strContains textLower p then w else 0) + weightedHits textLower w ps

/-- `positive_count` (weight 2 per hit). -/
def fbPositiveCount (t : String) : Nat :=
  weightedHits (pyLower t) 2 fbPositiveIndicators

/-- `negative_count` (weight 2 per hit). -/
def fbNegativeCount (t : String) : Nat :=
  weightedHits (pyLower t) 2 fbNegativeIndicators

/-- `neutral_count` (weight 1 per hit; computed by the source, then unused). -/
def fbNeutralCount (t : String) : Nat :=
  weightedHits (pyLower t) 1 fbNeutralIndicators

/-- The sentiment branch of the enhanced fallback. -/
def fbSentiment (t : String) : Sentiment :=
  if fbPositiveCount t > fbNegativeCount t ∧ fbPositiveCount t > 0 then .positive
  else if fbNegativeCount t > fbPositiveCount t ∧ fbNegativeCount t > 0 then .negative
  else .neutral

/-- `satisfaction_score` before the clamp applied at record construction. -/
def fbSatisfactionRaw (t : String) : Int :=
  if fbPositiveCount t > fbNegativeCount t ∧ fbPositiveCount t > 0 then
    min 90 (65 + (fbPositiveCount t : Int) * 4)
  else if fbNegativeCount t > fbPositiveCount t ∧ fbNegativeCount t > 0 then
    max 20 (45 - (fbNegativeCount t : Int) * 6)
  else
    55 + (fbPositiveCount t : Int) * 2 - (fbNegativeCount t : Int) * 2

/-- `overall_score` before the clamp applied at record construction. -/
def fbOverallRaw (t : String) : Int :=
  if fbPositiveCount t > fbNegativeCount t ∧ fbPositiveCount t > 0 then
    min 85 (60 + (fbPositiveCount t : Int) * 3)
  else if fbNegativeCount t > fbPositiveCount t ∧ fbNegativeCount t > 0 then
    max 25 (40 - (fbNegativeCount t : Int) * 4)
  else
    50 + (fbPositiveCount t : Int) * 1 - (fbNegativeCount t : Int) * 1

/-- The `topic_keywords` dict of the enhanced fallback, in insertion order. -/
def fbTopicKeywords : List (String × List String) :=
  [("Pricing & Budget", ["price", "cost", "budget", "expensive", "afford", "pricing", "quote", "fee", "investment", "value"]),
   ("Demo & Trial", ["demo", "trial", "test", "try", "sample", "preview", "show", "demonstration"]),
   ("Timeline & Urgency", ["timeline", "when", "schedule", "deadline", "timeframe", "start", "launch", "urgent", "asap"]),
   ("Features & Functionality", ["feature", "capability", "function", "tool", "option", "setting", "functionality"]),
   ("Implementation & Setup", ["implement", "setup", "install", "deploy", "onboard", "training", "configuration"]),
   ("Support & Service", ["support", "help", "assistance", "service", "maintenance", "customer service"]),
   ("Integration & Compatibility", ["integrate", "connect", "api", "system", "platform", "compatible"]),
   ("Security & Compliance", ["security", "secure", "safe", "protect", "privacy", "compliance", "gdpr"]),
   ("Competition & Comparison", ["competitor", "alternative", "compare", "better than", "vs", "versus"]),
   ("ROI & Business Impact", ["roi", "return", "benefit", "impact", "improve", "efficiency", "productivity"])]

/-- The topic hits of the enhanced fallback, before the default. -/
def fbKeyTopicsRaw (t : String) : List String :=
  fbTopicKeywords.filterMap fun tk =>
    if tk.2.any (fun kw => strContains (pyLower t) kw) then some tk.1 else none

/-- `key_topics` with the `'General Discussion'` default. -/
def fbKeyTopics (t : String) : List String :=
  if fbKeyTopicsRaw t = [] then ["General Discussion"] else fbKeyTopicsRaw t

/-- `question_marks = transcript_text.count('?')`. -/
def fbQuestionMarks (t : String) : Nat := countChar t '?'

/-- `exclamation_marks = transcript_text.count('!')`. -/
def fbExclamationMarks (t : String) : Nat := countChar t '!'

/-- `len(transcript_text.split('.'))`. -/
def fbNumSentences (t : String) : Nat := (t.splitOn ".").length

/-- The `summary` string built by the enhanced fallback (before the final
`summary[:600]` truncation applied at record construction). -/
def fbSummary (t : String) : String :=
  if t.length < 100 then
    "Short call with limited content available for detailed analysis. Basic insights generated based on available information."
  else
    let sentences := t.splitOn "."
    if sentences.length > 4 then
      let startSentences := sentences.take 3
      let middleSentences :=
        if sentences.length > 8 then (sentences.drop (sentences.length / 2)).take 2 else []
      let endSentences :=
        if sentences.length > 6 then sentences.drop (sentences.length - 2)
        else sentences.drop (sentences.length - 1)
      let summaryParts := startSentences ++ middleSentences ++ endSentences
      "Call discussion covered " ++ String.intercalate ", " ((fbKeyTopics t).take 3) ++
        ". Key highlights: " ++ String.intercalate " " (summaryParts.take 5) ++ "..."
    else
      "Call discussion covered " ++ String.intercalate ", " ((fbKeyTopics t).take 3) ++
        ". " ++ pyTake t 400 ++ "..."

/-- `talk_time_ratio`: the speaker-analysis value, recomputed from question
density when it equals the `0.6` sentinel. -/
def fbTalkTimeRatio (t : String) : ℚ :=
  let analysisRatio := (analyzeSpeakersInTranscript t).talkTimeRatio
  if analysisRatio = 0.6 then
    if (fbQuestionMarks t : ℚ) > (fbNumSentences t : ℚ) * 0.4 then 0.75
    else if (fbQuestionMarks t : ℚ) < (fbNumSentences t : ℚ) * 0.1 then 0.45
    else 0.6
  else analysisRatio

/-- `engagement_score`: capped base from length with question/exclamation/
positive-phrase bonuses. -/
def fbEngagement (t : String) : Int :=
  let base0 : Int := min 90 (max 40 ((t.length / 12 : Nat) : Int))
  let base1 := base0 + (if fbQuestionMarks t > 0 then min 25 ((fbQuestionMarks t : Int) * 3) else 0)
  let base2 := base1 + (if fbExclamationMarks t > 0 then min 15 ((fbExclamationMarks t : Int) * 2) else 0)
  let base3 := base2 + (if fbPositiveCount t > 0 then min 20 ((fbPositiveCount t : Int) * 2) else 0)
  min 95 base3

/-- The BANT keyword analysis of the enhanced fallback. -/
def fbBant (t : String) : BantScores :=
  let tl := pyLower t
  let anyIn := fun (kws : List String) => kws.any (fun kw => strContains tl kw)
  { budget :=
      if anyIn ["budget", "price", "cost", "expensive", "afford", "pricing", "investment", "value", "money", "financial"] then
        (if anyIn ["budget approved", "have budget", "allocated", "funding"] then 85 else 65)
      else 30
    authority :=
      if anyIn ["decision", "approve", "manager", "director", "ceo", "boss", "team", "responsible", "authority", "sign off"] then
        (if anyIn ["i decide", "i approve", "my decision", "final say"] then 85 else 65)
      else 30
    need :=
      if anyIn ["problem", "challenge", "issue", "need", "want", "looking for", "requirement", "pain", "struggle", "difficult"] then
        (if anyIn ["urgent", "critical", "must have", "essential", "desperate"] then 90 else 75)
      else 50
    timeline :=
      if anyIn ["when", "timeline", "deadline", "urgent", "soon", "quickly", "asap", "immediate", "timeframe", "schedule"] then
        (if anyIn ["asap", "immediate", "urgent", "this month", "next week"] then 85 else 65)
      else 30 }

/-- `deal_probability`: additive heuristic capped at 95. -/
def fbDealProbability (t : String) : Int :=
  let tl := pyLower t
  let base : Int := 25
    + (if fbSentiment t = .positive then 30 else 0)
    + (if ["next step", "follow up", "schedule", "meeting", "demo", "trial"].any (fun w => strContains tl w) then 25 else 0)
    + (if (fbBant t).need > 60 then 20 else 0)
    + (if (fbBant t).authority > 50 then 15 else 0)
    + (if (fbBant t).budget > 50 then 10 else 0)
  min 95 base

/-- The improvement areas of the enhanced fallback, before the default. -/
def fbImprovementAreasRaw (t : String) : List String :=
  let tl := pyLower t
  let sa := analyzeSpeakersInTranscript t
  (if strContains tl "price" && (strContains tl "expensive" || strContains tl "too much") then
    ["Value Proposition Communication"] else [])
    ++ (if fbQuestionMarks t < 3 then ["Discovery Questions"] else [])
    ++ (if t.length < 500 then ["Call Duration and Depth"] else [])
    ++ (if fbNegativeCount t > fbPositiveCount t then ["Objection Handling"] else [])
    ++ (if (fbBant t).budget < 50 then ["Budget Qualification"] else [])
    ++ (if (fbBant t).authority < 50 then ["Decision Maker Identification"] else [])
    ++ (if sa.totalSpeakers > 0 then
          (if sa.speakerTurns < 5 then ["Encourage more conversation flow"] else [])
          ++ (if sa.mostActiveSpeaker = some "Speaker 1" ∧ fbTalkTimeRatio t > 0.7 then
               ["Balance conversation - allow more customer input"] else [])
          ++ (if sa.totalSpeakers < 2 then ["Improve speaker identification and separation"] else [])
        else [])

/-- `improvement_areas` of the enhanced fallback (content + speaker analysis,
with the `'Follow-up Communication'` default). -/
def fbImprovementAreas (t : String) : List String :=
  if fbImprovementAreasRaw t = [] then ["Follow-up Communication"] else fbImprovementAreasRaw t

/-- The action items of the enhanced fallback, before the default. -/
def fbActionItemsRaw (t : String) : List String :=
  let tl := pyLower t
  (if strContains tl "demo" || strContains tl "trial" then ["Schedule product demonstration"] else [])
  ++ (if strContains tl "price" || strContains tl "cost" then ["Send pricing information"] else [])
  ++ (if strContains tl "timeline" || strContains tl "when" then ["Follow up on timeline discussion"] else [])
  ++ (if (fbBant t).authority < 50 then ["Identify decision maker"] else [])
  ++ (if (fbBant t).budget < 50 then ["Qualify budget requirements"] else [])

/-- `action_items` of the enhanced fallback, with the default. -/
def fbActionItems (t : String) : List String :=
  if fbActionItemsRaw t = [] then ["Schedule follow-up call"] else fbActionItemsRaw t

/-- `trust_building_moments` of the enhanced fallback. -/
def fbTrustMoments (t : String) : List String :=
  let tl := pyLower t
  (if t.length > 300 then ["Initial rapport building"] else [])
  ++ (if strContains tl "understand" || strContains tl "see" then ["Active listening demonstrated"] else [])
  ++ (if strContains tl "experience" || strContains tl "similar" then ["Shared relevant experience"] else [])

/-- `interest_indicators` of the enhanced fallback. -/
def fbInterestIndicators (t : String) : List String :=
  let tl := pyLower t
  (if fbSentiment t = .positive then ["Positive engagement throughout call"] else [])
  ++ (if fbQuestionMarks t > 5 then ["High level of questions asked"] else [])
  ++ (if strContains tl "demo" || strContains tl "trial" then ["Requested product demonstration"] else [])
  ++ (if strContains tl "timeline" || strContains tl "when" then ["Discussed implementation timeline"] else [])

/-- `concern_indicators` of the enhanced fallback. -/
def fbConcernIndicators (t : String) : List String :=
  let tl := pyLower t
  (if strContains tl "price" && strContains tl "expensive" then ["Price sensitivity expressed"] else [])
  ++ (if fbNegativeCount t > 0 then ["Some reservations expressed"] else [])
  ++ (if (fbBant t).budget < 40 then ["Budget constraints mentioned"] else [])

/-- `upsell_opportunities` of the enhanced fallback. -/
def fbUpsellOpportunities (t : String) : List String :=
  let tl := pyLower t
  (if strContains tl "basic" || strContains tl "standard" then ["Premium features discussion"] else [])
  ++ (if strContains tl "support" then ["Enhanced support options"] else [])
  ++ (if strContains tl "integration" then ["Additional integration services"] else [])

/-- `ProcessingService._generate_enhanced_fallback_insights`: the
deterministic, lexicon-driven tier. The source sets `call_id=0` (the caller
overwrites it before persisting). -/
def generateEnhancedFallbackInsights (t : String) : InsightsRecord :=
  { callId := 0
    sentiment := fbSentiment t
    keyTopics := fbKeyTopics t
    satisfactionScore := max 15 (min 95 (fbSatisfactionRaw t))
    improvementAreas := fbImprovementAreas t
    actionItems := fbActionItems t
    summary := pyTake (fbSummary t) 600
    overallScore := max 15 (min 95 (fbOverallRaw t))
    talkTimeRatio := fbTalkTimeRatio t
    questionEffectiveness := max 35 (min 90 (50 + (fbQuestionMarks t : Int) * 4))
    engagementScore := fbEngagement t
    commitmentLevel :=
      if fbDealProbability t > 75 then "High"
      else if fbDealProbability t > 45 then "Medium" else "Low"
    conversationPace :=
      if fbNumSentences t > 25 then "Fast"
      else if fbNumSentences t < 8 then "Slow" else "Moderate"
    interruptionCount := some 0
    silencePeriods := some 0
    bantQualification := fbBant t
    valuePropositionScore :=
      max 35 (min 90 (55 + (fbPositiveCount t : Int) * 4 - (fbNegativeCount t : Int) * 2))
    trustBuildingMoments := fbTrustMoments t
    interestIndicators := fbInterestIndicators t
    concernIndicators := fbConcernIndicators t
    dealProbability := fbDealProbability t
    followUpUrgency :=
      if fbDealProbability t > 75 then "High"
      else if fbDealProbability t > 45 then "Medium" else "Low"
    upsellOpportunities := fbUpsellOpportunities t }

/-! ## `_create_emergency_insights` (processing_service.py:2690-2774) -/

/-- The emergency sentiment/base-score decision. -/
def emergencySentimentBase (t : String) : Sentiment × Int :=
  let tl := pyLower t
  if ["yes", "good", "great", "interested", "sounds good"].any (fun w => strContains tl w) then
    (.positive, 65)
  else if ["no", "not interested", "expensive", "busy"].any (fun w => strContains tl w) then
    (.negative, 35)
  else (.neutral, 50)

/-- `ProcessingService._create_emergency_insights`: minimal fixed-shape record
used when persisting the generated insights failed. -/
def createEmergencyInsights (callId : Int) (filename : String) (t : String) : InsightsRecord :=
  let tl := pyLower t
  let sb := emergencySentimentBase t
  let transcriptLength := t.length
  { callId := callId
    summary :=
      if transcriptLength < 100 then
        "Call analysis completed for " ++ filename ++ ". Limited transcript available for detailed analysis."
      else
        "Call analysis completed for " ++ filename ++ ". Transcript contains " ++
          toString transcriptLength ++ " characters of conversation data."
    sentiment := sb.1
    keyTopics :=
      ["General Discussion"]
      ++ (if strContains tl "price" || strContains tl "cost" then ["Pricing"] else [])
      ++ (if strContains tl "demo" || strContains tl "trial" then ["Demo/Trial"] else [])
      ++ (if strContains tl "timeline" || strContains tl "when" then ["Timeline"] else [])
    satisfactionScore := max 20 (min 90 sb.2)
    improvementAreas :=
      ["Follow-up Communication"]
      ++ (if transcriptLength < 500 then ["Call Duration"] else [])
      ++ (if countChar t '?' < 3 then ["Discovery Questions"] else [])
    actionItems :=
      ["Schedule follow-up call"]
      ++ (if strContains tl "demo" then ["Schedule product demonstration"] else [])
      ++ (if strContains tl "price" then ["Send pricing information"] else [])
    overallScore := max 20 (min 90 sb.2)
    talkTimeRatio := 0.6
    questionEffectiveness := 50
    engagementScore := 60
    commitmentLevel := "Medium"
    conversationPace := "Moderate"
    interruptionCount := some 0
    silencePeriods := some 0
    bantQualification := ⟨50, 50, 50, 50⟩
    valuePropositionScore := 50
    trustBuildingMoments := ["Initial conversation"]
    interestIndicators := if sb.1 = .positive then ["Engaged in discussion"] else []
    concernIndicators := if sb.1 = .negative then ["General concerns"] else []
    dealProbability := max 20 (min 80 (sb.2 + 10))
    followUpUrgency := "Medium"
    upsellOpportunities := [] }

/-! ## `_generate_gpt_insights` acceptance (processing_service.py:2371-2393)

`GptRawInsights` models a successfully parsed JSON object: a field is `some v`
when the JSON supplied a value of the expected type and `none` when the key
was absent (a present value of the wrong type, an invalid sentiment string,
unparsable JSON or an empty response all make `_generate_gpt_insights` raise
or return `None`, which `_generate_insights` turns into the fallback tier). -/

structure GptRawInsights where
  summary : Option String := none
  sentiment : Option Sentiment := none
  keyTopics : Option (List String) := none
  satisfactionScore : Option Int := none
  improvementAreas : Option (List String) := none
  actionItems : Option (List String) := none
  overallScore : Option Int := none
  talkTimeRatio : Option ℚ := none
  questionEffectiveness : Option Int := none
  engagementScore : Option Int := none
  commitmentLevel : Option String := none
  conversationPace : Option String := none
  bantQualification : Option BantScores := none
  valuePropositionScore : Option Int := none
  trustBuildingMoments : Option (List String) := none
  interestIndicators : Option (List String) := none
  concernIndicators : Option (List String) := none
  dealProbability : Option Int := none
  followUpUrgency : Option String := none
  upsellOpportunities : Option (List String) := none
deriving Repr, DecidableEq

/-- The `InsightsCreate(...)` acceptance/clamping step of
`_generate_gpt_insights`: every top-level numeric field is clamped, but
`bant_qualification` is passed through without clamping. -/
def generateGptInsights (raw : GptRawInsights) : InsightsRecord :=
  { callId := 0
    summary := raw.summary.getD "Call analysis completed"
    sentiment := raw.sentiment.getD .neutral
    keyTopics := raw.keyTopics.getD ["General Discussion"]
    satisfactionScore := max 10 (min 95 (raw.satisfactionScore.getD 50))
    improvementAreas := raw.improvementAreas.getD ["Follow-up Communication"]
    actionItems := raw.actionItems.getD ["Schedule follow-up call"]
    overallScore := max 10 (min 95 (raw.overallScore.getD 50))
    talkTimeRatio := max 0.1 (min 0.9 (raw.talkTimeRatio.getD 0.6))
    questionEffectiveness := max 30 (min 90 (raw.questionEffectiveness.getD 50))
    engagementScore := max 30 (min 95 (raw.engagementScore.getD 60))
    commitmentLevel := raw.commitmentLevel.getD "Medium"
    conversationPace := raw.conversationPace.getD "Moderate"
    interruptionCount := none
    silencePeriods := none
    bantQualification := raw.bantQualification.getD ⟨50, 50, 50, 50⟩
    valuePropositionScore := max 30 (min 90 (raw.valuePropositionScore.getD 50))
    trustBuildingMoments := raw.trustBuildingMoments.getD []
    interestIndicators := raw.interestIndicators.getD []
    concernIndicators := raw.concernIndicators.getD []
    dealProbability := max 10 (min 95 (raw.dealProbability.getD 50))
    followUpUrgency := raw.followUpUrgency.getD "Medium"
    upsellOpportunities := raw.upsellOpportunities.getD [] }

/-- `ProcessingService._generate_insights`: the GPT tier when it produced a
parsed record (`some raw`), otherwise the enhanced fallback. `none` covers
every failure of the primary tier: missing API key, request exception, empty
response, and malformed or ill-typed JSON. -/
def generateInsights (llm : Option GptRawInsights) (transcript : String) : InsightsRecord :=
  match llm with
  | some raw => generateGptInsights raw
  | none => generateEnhancedFallbackInsights transcript

/-! ## `_transcribe_audio` retry loop (processing_service.py:900-1008)

One call to `_transcribe_with_whisper` is an oracle outcome: it raised
(`err msg`, the exception's message string), returned `None` (`okNone`), or
returned a `(transcript, duration)` tuple (`ok text dur`). -/

inductive WhisperOutcome
  | err (msg : String)
  | okNone
  | ok (text : String) (dur : Option Int)
deriving Repr

/-- `"Transcript too short (%d chars) - ..."` raised on the final attempt. -/
def tooShortMsg (n : Nat) : String :=
  "Transcript too short (" ++ toString n ++ " chars) - audio may be empty, silent, or unsupported format"

/-- Message raised when the final attempt returned `None`. -/
def noneResultMsg : String :=
  "Transcription returned None after all attempts - this indicates a critical error"

/-- The error-formatting tail of `_transcribe_audio` (lines 988-997), applied
to `last_error` after all attempts failed. -/
def classifyTranscriptionError (msg : String) : String :=
  if strContains msg "S3" || strContains (pyLower msg) "download" then
    "S3 download failed: " ++ msg ++ ". Check AWS credentials and S3 bucket access."
  else if strContains msg "Whisper" || strContains (pyLower msg) "transcription" then
    "Whisper API error: " ++ msg ++ ". Check OpenAI API key and file format."
  else
    "Transcription failed: " ++ msg

/-- Result of the retry loop: the outcome, the number of attempts actually
made, and the number of 2-second backoff sleeps performed. -/
structure TranscribeResult where
  result : Except String (String × Option Int)
  attempts : Nat
  sleeps : Nat
deriving Repr

/-- The `for attempt in range(1, max_retries + 1)` loop. `fuel` is the number
of attempts still available (3 at entry); a raise on the final attempt is
caught by the loop's own handler and formatted by
`classifyTranscriptionError` — exactly the source's fall-through. The
`await asyncio.sleep(2)` backoff runs only in the exception branch of a
non-final attempt, so only `err` outcomes count a sleep. -/
def transcribeGo (w : Nat → WhisperOutcome) (attempt sleeps : Nat) : Nat → TranscribeResult
  | 0 =>
      -- loop exhausted with `last_error is None`: unreachable, every final
      -- attempt records an error before falling through
      ⟨.error "Transcription failed: Unknown error (all attempts returned None)", attempt - 1, sleeps⟩
  | fuel + 1 =>
      let isLast := fuel = 0
      match w attempt with
      | .ok text dur =>
          if text ≠ "" ∧ (pyStrip text).length > 10 then ⟨.ok (text, dur), attempt, sleeps⟩
          else if isLast then
            ⟨.error (classifyTranscriptionError (tooShortMsg (pyStrip text).length)), attempt, sleeps⟩
          else transcribeGo w (attempt + 1) sleeps fuel
      | .okNone =>
          if isLast then ⟨.error (classifyTranscriptionError noneResultMsg), attempt, sleeps⟩
          else transcribeGo w (attempt + 1) sleeps fuel
      | .err msg =>
          if isLast then ⟨.error (classifyTranscriptionError msg), attempt, sleeps⟩
          else transcribeGo w (attempt + 1) (sleeps + 1) fuel

/-- `ProcessingService._transcribe_audio` with `max_retries = 3`. -/
def transcribeAudio (w : Nat → WhisperOutcome) : TranscribeResult :=
  transcribeGo w 1 0 3

/-! ## `process_call` (processing_service.py:70-898) as a state machine -/

/-- `CallStatus` (models.py). -/
inductive CallStatus
  | processing
  | processed
  | failed
deriving Repr, DecidableEq

/-- The columns of the `Call` row that the processor reads or writes. -/
structure CallRow where
  id : Int
  status : CallStatus
  score : Option Int
  duration : Option Int
deriving Repr, DecidableEq

/-- The database slice owned by the pipeline: the call row, its transcript
row's text (`none` = no row) and its insights row (`none` = no row). -/
structure PipelineDB where
  call : CallRow
  transcript : Option String
  insights : Option InsightsRecord
deriving Repr, DecidableEq

/-- The environment supplying every external effect of one `process_call`
run. Database writes of the call row and transcript row are modelled as
reliable; the two writes the source explicitly guards with fallback logic —
the transcript upsert and the insights+status commit — have Boolean switches.
The repeatedly retried, failure-swallowed duration extractions are collapsed
into the three oracle values `eagerDuration` (immediate extraction),
the duration returned by transcription (inside `WhisperOutcome.ok`), and
`finalDuration` (the pre-PROCESSED "mandatory" extraction). -/
structure ProcEnv where
  apiKeyPresent : Bool
  whisper : Nat → WhisperOutcome
  llm : Option GptRawInsights
  eagerDuration : Option Int
  finalDuration : Option Int
  transcriptSaveOk : Bool
  transcriptRetrySaveOk : Bool
  transcriptRetryErrorMsg : String
  insightsSaveOk : Bool
  emergencySaveOk : Bool
  filename : String

/-- Outcome of one `process_call` run: the propagated exception (if any), the
final database state, and the number of transcription attempts made. -/
structure ProcResult where
  result : Except String Unit
  db : PipelineDB
  attempts : Nat

/-- `clean_error = error_message.replace("❌", "").replace("CRITICAL:", "").strip()`. -/
def cleanError (msg : String) : String :=
  pyStrip (pyReplace (pyReplace msg "❌" "") "CRITICAL:" "")

/-- The top-level exception handler of `process_call` (lines 802-898): roll
back, mark the call FAILED, and write/overwrite the transcript with
`"Processing failed: " + clean_error` so the failure is user-visible. -/
def failHandler (db : PipelineDB) (msg : String) : PipelineDB :=
  { db with call := { db.call with status := .failed }
            transcript := some ("Processing failed: " ++ cleanError msg) }

/-- A duration write that is skipped unless the extracted value is positive
(the shape shared by the eager and the post-transcription duration saves;
their failure paths are swallowed by the source). -/
def setDuration (db : PipelineDB) (d : Option Int) : PipelineDB :=
  match d with
  | some v => if v > 0 then { db with call := { db.call with duration := some v } } else db
  | none => db

@[simp] theorem setDuration_call_id (db : PipelineDB) (d : Option Int) :
    (setDuration db d).call.id = db.call.id := by
  unfold setDuration
  rcases d with _ | v
  · rfl
  · by_cases h : v > 0 <;> simp [h]

@[simp] theorem setDuration_call_status (db : PipelineDB) (d : Option Int) :
    (setDuration db d).call.status = db.call.status := by
  unfold setDuration
  rcases d with _ | v
  · rfl
  · by_cases h : v > 0 <;> simp [h]

@[simp] theorem setDuration_call_score (db : PipelineDB) (d : Option Int) :
    (setDuration db d).call.score = db.call.score := by
  unfold setDuration
  rcases d with _ | v
  · rfl
  · by_cases h : v > 0 <;> simp [h]

@[simp] theorem setDuration_transcript (db : PipelineDB) (d : Option Int) :
    (setDuration db d).transcript = db.transcript := by
  unfold setDuration
  rcases d with _ | v
  · rfl
  · by_cases h : v > 0 <;> simp [h]

@[simp] theorem setDuration_insights (db : PipelineDB) (d : Option Int) :
    (setDuration db d).insights = db.insights := by
  unfold setDuration
  rcases d with _ | v
  · rfl
  · by_cases h : v > 0 <;> simp [h]

/-- `saved_duration` selection before marking PROCESSED (lines 526-598):
the call row's duration if truthy, else the transcription step's duration,
else one more direct extraction attempt. -/
def pickSavedDuration (rowDur transcribedDur mandatoryDur : Option Int) : Option Int :=
  let d0 := match rowDur with
    | some d => if d ≠ 0 then some d else transcribedDur
    | none => transcribedDur
  match d0 with
  | some d =>
      if d ≤ 0 then
        (match mandatoryDur with
         | some m => if m > 0 then some m else d0
         | none => d0)
      else d0
  | none =>
      match mandatoryDur with
      | some m => if m > 0 then some m else none
      | none => none

/-- `ProcessingService.process_call` as one transition on `PipelineDB`. -/
def processCall (env : ProcEnv) (db0 : PipelineDB) : ProcResult :=
  if ¬ env.apiKeyPresent then
    -- precondition check before any transcription attempt (lines 80-85)
    ⟨.error "OpenAI API key not configured",
      failHandler db0 "OpenAI API key not configured", 0⟩
  else
    -- mark status=PROCESSING and commit (lines 111-115)
    let db1 : PipelineDB := { db0 with call := { db0.call with status := .processing } }
    -- eager duration extraction, failure swallowed (lines 117-223)
    let db2 := setDuration db1 env.eagerDuration
    let tr := transcribeAudio env.whisper
    match tr.result with
    | .error msg =>
        -- TranscriptionError is fatal: outer handler marks FAILED (line 802-853)
        ⟨.error msg, failHandler db2 msg, tr.attempts⟩
    | .ok (text, dur) =>
        if text = "" ∨ (pyStrip text).length < 10 then
          -- re-check at line 252 (dead: `_transcribe_audio` only succeeds with > 10 chars)
          ⟨.error "Real audio transcription failed - transcript is empty",
            failHandler db2 "Real audio transcription failed - transcript is empty", tr.attempts⟩
        else
          -- immediate duration save, failure swallowed (lines 259-383)
          let db3 := setDuration db2 dur
          -- transcript upsert, one truncated retry, then fatal (lines 385-438)
          if env.transcriptSaveOk ∨ env.transcriptRetrySaveOk then
            let savedText := if env.transcriptSaveOk then text else pyTake text 5000
            let db4 := { db3 with transcript := some savedText }
            -- delete any pre-existing insights row, then generate (lines 443-461)
            let record0 := generateInsights env.llm text
            let db5 := { db4 with insights := none }
            if env.insightsSaveOk then
              -- insights + score + status committed together (lines 498-710)
              let record := { record0 with callId := db5.call.id }
              let savedDuration := pickSavedDuration db5.call.duration dur env.finalDuration
              let newDur := match savedDuration with
                | some d => if d > 0 then some d else none
                | none => none
              let db6 := { db5 with
                insights := some record
                call := { db5.call with
                  score := some record.overallScore
                  status := .processed
                  duration := newDur } }
              ⟨.ok (), db6, tr.attempts⟩
            else if env.emergencySaveOk then
              -- emergency-tier insights save (lines 719-757)
              let em := createEmergencyInsights db5.call.id env.filename text
              let db7 := { db5 with
                insights := some em
                call := { db5.call with score := some em.overallScore, status := .processed } }
              ⟨.ok (), db7, tr.attempts⟩
            else
              -- both saves failed: status forced back to PROCESSING and
              -- committed (lines 763-765), then the raised ValueError is
              -- caught by process_call's own top-level handler, which marks
              -- the call FAILED and overwrites the transcript (lines 802-853)
              let msg := "Failed to save insights for call " ++ toString db5.call.id ++ " after all attempts"
              let db7 := { db5 with call := { db5.call with status := .processing } }
              ⟨.error msg, failHandler db7 msg, tr.attempts⟩
          else
            -- transcript retry also failed: its exception propagates (line 438)
            ⟨.error env.transcriptRetryErrorMsg,
              failHandler db3 env.transcriptRetryErrorMsg, tr.attempts⟩

/-! ## `process_call_background` safety pass and `validate_insights_exist`
(processing_service.py:2975-3187 and 3268-3371) -/

/-- The FINAL DURATION CHECK of `process_call_background` (lines 3000-3152):
if the call still has no positive duration, one more extraction attempt is
made (`finalDur` is its oracle result); when it succeeds on a PROCESSING call
that already has an insights row and a truthy score, the call is promoted to
PROCESSED in the same commit. -/
def durationMissing (db : PipelineDB) : Bool :=
  match db.call.duration with
  | some d => d ≤ 0
  | none => true

/-- `if call.status == PROCESSING and insights_check and call.score` (lines
3108-3111): the stuck-call promotion condition of the final duration check. -/
def promoteEligible (db : PipelineDB) : Bool :=
  db.call.status = CallStatus.processing && db.insights.isSome &&
    (match db.call.score with | some s => s ≠ 0 | none => false)

def finalDurationCheck (finalDur : Option Int) (db : PipelineDB) : PipelineDB :=
  if durationMissing db then
    match finalDur with
    | some d =>
        if d > 0 then
          if promoteEligible db then
            { db with call := { db.call with duration := some d, status := .processed } }
          else
            { db with call := { db.call with duration := some d } }
        else db
    | none => db
  else db

/-- `validate_insights_exist` (lines 3268-3371) as a transition on
`PipelineDB`: creates missing insights from the stored transcript (emergency
generator) for calls already in a terminal state, except when the transcript
carries one of the transcription-failure markers. -/
def validateInsightsExist (filename : String) (db : PipelineDB) : PipelineDB :=
  if db.insights.isSome then db
  else if db.call.status = CallStatus.processing then db
  else
    let fallbackText :=
      "Audio file uploaded: " ++ filename ++ ". Transcription failed - please check audio file and retry."
    let step : Option (PipelineDB × String) :=
      match db.transcript with
      | some t => some (db, t)
      | none =>
          if db.call.status = CallStatus.failed then
            some ({ db with transcript := some fallbackText }, fallbackText)
          else
            -- PROCESSED with no transcript: return without creating anything
            none
    match step with
    | none => db
    | some (db1, transcriptText) =>
        if strContains transcriptText "Transcription in progress" ||
           strContains transcriptText "Transcription failed" then
          -- mark call as FAILED instead of creating fake insights
          { db1 with call := { db1.call with status := .failed } }
        else
          let em := createEmergencyInsights db1.call.id filename transcriptText
          { db1 with
            insights := some em
            call := { db1.call with score := some em.overallScore, status := .processed } }

/-- `process_call_background`: run `process_call` (its exceptions are logged
and swallowed so the worker loop survives), then the final duration check,
then the final validation which re-creates missing insights. -/
def processCallBackground (env : ProcEnv) (db0 : PipelineDB) : PipelineDB :=
  let r := processCall env db0
  let db1 := finalDurationCheck env.finalDuration r.db
  if db1.insights.isSome then db1 else validateInsightsExist env.filename db1

/-! # Theorems -/

/-! ## C10 — language normalization -/

/-- A prefix of a char list is also an infix of it (`startswith key` implies
`key in clean`, so the source's disjunction collapses to the substring test). -/
theorem charsPrefix_imp_infix (p l : List Char) (h : charsPrefix p l = true) :
    charsInfix p l = true := by
  cases l with
  | nil => simpa [charsInfix] using h
  | cons c rest => simp [charsInfix, h]

/-- `pyStartsWith s k = true` implies `strContains s k = true`. -/
theorem pyStartsWith_imp_strContains (s k : String) (h : pyStartsWith s k = true) :
    strContains s k = true :=
  charsPrefix_imp_infix k.data s.data h

/-- The alias loop returns the value of the first entry whose key occurs in
the cleaned input, skipping every earlier entry whose key does not. -/
theorem firstAliasMatch_eq (clean : String) :
    ∀ (pre post : List (String × String)) (k v : String),
      (∀ p ∈ pre, strContains clean p.1 = false) →
      strContains clean k = true →
      firstAliasMatch clean (pre ++ (k, v) :: post) = some v := by
  intro pre
  induction pre with
  | nil =>
      intro post k v _ hk
      simp [firstAliasMatch, hk]
  | cons q qs ih =>
      intro post k v hpre hk
      obtain ⟨qk, qv⟩ := q
      have hq : strContains clean qk = false := hpre (qk, qv) (List.mem_cons_self _ _)
      have hqs : pyStartsWith clean qk = false := by
        cases hps : pyStartsWith clean qk
        · rfl
        · exact absurd (pyStartsWith_imp_strContains clean qk hps) (by simp [hq])
      simp only [List.cons_append, firstAliasMatch, hq, hqs, Bool.or_self,
        Bool.false_eq_true, if_false]
      exact ih post k v (fun p hp => hpre p (List.mem_cons_of_mem _ hp)) hk

/-- When no key of the table occurs in the cleaned input, the alias loop
finds nothing. -/
theorem firstAliasMatch_none (clean : String) :
    ∀ l : List (String × String), (∀ p ∈ l, strContains clean p.1 = false) →
      firstAliasMatch clean l = none := by
  intro l
  induction l with
  | nil => intro _; rfl
  | cons q qs ih =>
      intro hall
      obtain ⟨qk, qv⟩ := q
      have hq : strContains clean qk = false := hall (qk, qv) (List.mem_cons_self _ _)
      have hqs : pyStartsWith clean qk = false := by
        cases hps : pyStartsWith clean qk
        · rfl
        · exact absurd (pyStartsWith_imp_strContains clean qk hps) (by simp [hq])
      simp only [firstAliasMatch, hq, hqs, Bool.or_self, Bool.false_eq_true, if_false]
      exact ih (fun p hp => hall p (List.mem_cons_of_mem _ hp))

/-- C10: `_normalize_language_code` returns `None` exactly for `None` or
whitespace-only input (never raising — it is a total function); whenever the
lowercased, stripped input equals an alias-table key it returns that key's
mapped ISO code (so `"  English "` maps to `"en"`); otherwise it returns the
code of the **first** alias-table key, in insertion order, that occurs as a
substring of the cleaned input — whatever that key is — and passes the
cleaned input through unchanged only when no key occurs in it at all. In
particular `"bengali"` → `"en"`, `"farsi"` → `"ar"`, `"swahili"` → `"hi"`. -/
theorem normalize_language_code_spec :
    (∀ l : Option String, normalizeLanguageCode l = none ↔
      (l = none ∨ ∃ s, l = some s ∧ pyStrip (pyLower s) = "")) ∧
    (∀ (s k v : String), (k, v) ∈ languageMapping → pyStrip (pyLower s) = k →
      normalizeLanguageCode (some s) = some v) ∧
    (∀ (s : String) (pre post : List (String × String)) (k v : String),
      languageMapping = pre ++ (k, v) :: post →
      pyStrip (pyLower s) ≠ "" →
      exactAliasLookup (pyStrip (pyLower s)) languageMapping = none →
      (∀ p ∈ pre, strContains (pyStrip (pyLower s)) p.1 = false) →
      strContains (pyStrip (pyLower s)) k = true →
      normalizeLanguageCode (some s) = some v) ∧
    (∀ s : String, pyStrip (pyLower s) ≠ "" →
      exactAliasLookup (pyStrip (pyLower s)) languageMapping = none →
      (∀ p ∈ languageMapping, strContains (pyStrip (pyLower s)) p.1 = false) →
      normalizeLanguageCode (some s) = some (pyStrip (pyLower s))) ∧
    (normalizeLanguageCode (some "bengali") = some "en" ∧
     normalizeLanguageCode (some "farsi") = some "ar" ∧
     normalizeLanguageCode (some "swahili") = some "hi" ∧
     normalizeLanguageCode (some "  English ") = some "en") := by
  refine ⟨?_, ?_, ?_, ?_, by decide, by decide, by decide, by decide⟩
  · intro l
    match l with
    | none => simp [normalizeLanguageCode]
    | some s =>
        simp only [normalizeLanguageCode, Option.some.injEq, reduceCtorEq, false_or]
        constructor
        · intro h
          by_cases hc : pyStrip (pyLower s) = ""
          · exact ⟨s, rfl, hc⟩
          · exfalso
            simp only [if_neg hc] at h
            rcases hx : exactAliasLookup (pyStrip (pyLower s)) languageMapping with _ | v
            · rcases hf : firstAliasMatch (pyStrip (pyLower s)) languageMapping with _ | v
              · simp [hx, hf] at h
              · simp [hx, hf] at h
            · simp [hx] at h
        · rintro ⟨s', hs', hc⟩
          obtain rfl : s = s' := by simpa using hs'
          simp [hc]
  · intro s k v hmem hclean
    have hk_ne : k ≠ "" :=
      (by decide : ∀ p ∈ languageMapping, p.1 ≠ "") (k, v) hmem
    have hlook : exactAliasLookup k languageMapping = some v :=
      (by decide : ∀ p ∈ languageMapping, exactAliasLookup p.1 languageMapping = some p.2)
        (k, v) hmem
    simp only [normalizeLanguageCode, hclean, if_neg hk_ne, hlook]
  · intro s pre post k v heq hne hexact hpre hk
    simp only [normalizeLanguageCode, if_neg hne, hexact]
    rw [heq, firstAliasMatch_eq (pyStrip (pyLower s)) pre post k v hpre hk]
  · intro s hne hexact hall
    simp only [normalizeLanguageCode, if_neg hne, hexact]
    rw [firstAliasMatch_none (pyStrip (pyLower s)) languageMapping hall]

/-- Witness for C10: `"bengali"` hits the substring rule with first matching
key `"en"`, `"  English "` hits the exact rule after cleaning, and
whitespace-only input maps to `None`. -/
theorem normalize_language_code_spec_witness :
    normalizeLanguageCode (some "bengali") = some "en" ∧
    normalizeLanguageCode (some "  English ") = some "en" ∧
    normalizeLanguageCode (some "   ") = none := by
  refine ⟨?_, ?_, ?_⟩
  · exact normalize_language_code_spec.2.2.1 "bengali" [] (languageMapping.drop 1) "en" "en"
      (by decide) (by decide) (by decide) (by simp) (by decide)
  · exact normalize_language_code_spec.2.1 "  English " "english" "en" (by decide) (by decide)
  · exact (normalize_language_code_spec.1 (some "   ")).mpr (Or.inr ⟨"   ", rfl, by decide⟩)

/-! ## C7 — missing transcription credential -/

/-- C7: with no API key configured, `process_call` raises the configuration
error before any transcription attempt (zero attempts, hence zero retries),
the call ends FAILED, and the transcript row is written with a human-readable
text containing "API key". -/
theorem missing_api_key_fails_immediately :
    ∀ (env : ProcEnv) (db0 : PipelineDB), env.apiKeyPresent = false →
      (processCall env db0).attempts = 0 ∧
      (processCall env db0).result = .error "OpenAI API key not configured" ∧
      (processCall env db0).db.call.status = .failed ∧
      ∃ t, (processCall env db0).db.transcript = some t ∧ strContains t "API key" = true := by
  intro env db0 h
  have hc : ¬ env.apiKeyPresent = true := by simp [h]
  refine ⟨?_, ?_, ?_, ?_⟩ <;>
    simp only [processCall, if_pos hc, failHandler] <;> try rfl
  exact ⟨_, rfl, by decide⟩

/-- A `ProcEnv` with no API key configured (the other oracles are inert). -/
def envNoKey : ProcEnv :=
  { apiKeyPresent := false
    whisper := fun _ => .okNone
    llm := none
    eagerDuration := none
    finalDuration := none
    transcriptSaveOk := true
    transcriptRetrySaveOk := true
    transcriptRetryErrorMsg := "database error"
    insightsSaveOk := true
    emergencySaveOk := true
    filename := "call.mp3" }

/-- A freshly created call: status PROCESSING, no score, no duration, no
transcript row, no insights row. -/
def freshCallDB : PipelineDB :=
  { call := { id := 1, status := .processing, score := none, duration := none }
    transcript := none
    insights := none }

/-- Witness for C7 at a concrete environment and fresh call. -/
theorem missing_api_key_fails_immediately_witness :
    (processCall envNoKey freshCallDB).attempts = 0 ∧
    (processCall envNoKey freshCallDB).result = .error "OpenAI API key not configured" ∧
    (processCall envNoKey freshCallDB).db.call.status = .failed ∧
    ∃ t, (processCall envNoKey freshCallDB).db.transcript = some t ∧
      strContains t "API key" = true :=
  missing_api_key_fails_immediately envNoKey freshCallDB rfl

/-! ## C2 — double persistence failure -/

/-- If the first transcription attempt returns a transcript longer than 10
stripped characters, `_transcribe_audio` succeeds on attempt 1 with no
backoff. -/
theorem transcribeAudio_first_ok (w : Nat → WhisperOutcome) (text : String)
    (dur : Option Int) (hw : w 1 = .ok text dur) (hlen : (pyStrip text).length > 10) :
    transcribeAudio w = ⟨.ok (text, dur), 1, 0⟩ := by
  have hne : text ≠ "" := by
    intro he
    rw [he] at hlen
    have : (pyStrip "").length = 0 := rfl
    omega
  show transcribeGo w 1 0 (2 + 1) = _
  simp only [transcribeGo, hw]
  rw [if_pos ⟨hne, hlen⟩]

/-- The concrete environment for the C2 scenario: transcription succeeds, but
both the combined insights write and the emergency-tier write fail. -/
def envDoubleFail : ProcEnv :=
  { apiKeyPresent := true
    whisper := fun _ => .ok "Speaker 1: hello, this is a long enough transcript for the pipeline." none
    llm := none
    eagerDuration := none
    finalDuration := none
    transcriptSaveOk := true
    transcriptRetrySaveOk := true
    transcriptRetryErrorMsg := "database error"
    insightsSaveOk := false
    emergencySaveOk := false
    filename := "call.mp3" }

/-- Counterexample to C2: when both the insights write and the emergency save
fail, the final observed status of the call is FAILED, not PROCESSING — the
forced `status = PROCESSING` commit is overwritten by `process_call`'s own
top-level exception handler before the error reaches the caller. -/
theorem double_persistence_failure_final_status_not_processing :
    (processCall envDoubleFail freshCallDB).db.call.status ≠ .processing ∧
    (processCall envDoubleFail freshCallDB).db.call.status = .failed := by
  constructor <;> decide

/-- C2 (amended): if persisting the generated insights fails and the single
emergency-tier attempt also fails, `process_call` does force the status back
to PROCESSING and commit inside the insights handler, but the ValueError it
then raises is caught by its own top-level handler, which marks the call
FAILED, overwrites the transcript with the error text, and re-raises — so the
error propagates to the caller and the final observed status is FAILED, with
no insights row. -/
theorem double_persistence_failure_ends_failed :
    ∀ (env : ProcEnv) (db0 : PipelineDB) (text : String) (dur : Option Int),
      env.apiKeyPresent = true →
      env.whisper 1 = .ok text dur →
      (pyStrip text).length > 10 →
      env.transcriptSaveOk = true →
      env.insightsSaveOk = false →
      env.emergencySaveOk = false →
      (processCall env db0).result =
        .error ("Failed to save insights for call " ++ toString db0.call.id ++ " after all attempts") ∧
      (processCall env db0).db.call.status = .failed ∧
      (processCall env db0).db.transcript =
        some ("Processing failed: " ++
          cleanError ("Failed to save insights for call " ++ toString db0.call.id ++ " after all attempts")) ∧
      (processCall env db0).db.insights = none := by
  intro env db0 text dur hkey hw hlen hts his hem
  have hne : text ≠ "" := by
    intro he
    rw [he] at hlen
    have : (pyStrip "").length = 0 := rfl
    omega
  have hcond : ¬ (text = "" ∨ (pyStrip text).length < 10) := by
    rintro (h | h)
    · exact hne h
    · omega
  have hkey' : ¬ ¬ env.apiKeyPresent = true := by simp [hkey]
  simp only [processCall, if_neg hkey', transcribeAudio_first_ok env.whisper text dur hw hlen,
    if_neg hcond, if_pos (Or.inl hts), if_neg (by simp [his] : ¬ env.insightsSaveOk = true),
    if_neg (by simp [hem] : ¬ env.emergencySaveOk = true), failHandler,
    setDuration_call_id, setDuration_call_status, setDuration_call_score,
    setDuration_transcript, setDuration_insights, and_self, and_true, true_and]
  try trivial

/-- Witness for C2 (amended) at the concrete double-failure environment. -/
theorem double_persistence_failure_ends_failed_witness :
    (processCall envDoubleFail freshCallDB).result =
      .error ("Failed to save insights for call " ++ toString freshCallDB.call.id ++ " after all attempts") ∧
    (processCall envDoubleFail freshCallDB).db.call.status = .failed ∧
    (processCall envDoubleFail freshCallDB).db.transcript =
      some ("Processing failed: " ++
        cleanError ("Failed to save insights for call " ++ toString freshCallDB.call.id ++ " after all attempts")) ∧
    (processCall envDoubleFail freshCallDB).db.insights = none :=
  double_persistence_failure_ends_failed envDoubleFail freshCallDB
    "Speaker 1: hello, this is a long enough transcript for the pipeline." none
    rfl rfl (by decide) rfl rfl rfl

/-! ## C6 — transcription retry envelope -/

/-- The environment of the C6 scenario: the transcription service returns a
3-character string on every attempt; every database write works. -/
def envShortTranscript : ProcEnv :=
  { apiKeyPresent := true
    whisper := fun _ => .ok "abc" none
    llm := none
    eagerDuration := none
    finalDuration := none
    transcriptSaveOk := true
    transcriptRetrySaveOk := true
    transcriptRetryErrorMsg := "database error"
    insightsSaveOk := true
    emergencySaveOk := true
    filename := "call.mp3" }

/-- Counterexample to C6 as stated: in the claimed scenario (a 3-character
result on all 3 attempts) the three attempts are made with **zero** backoff
sleeps between them — the fixed 2-second backoff runs only when an attempt
raised an exception, not between short-result retries. -/
theorem short_transcript_retries_without_backoff :
    (transcribeAudio envShortTranscript.whisper).attempts = 3 ∧
    (transcribeAudio envShortTranscript.whisper).sleeps = 0 := by
  constructor <;> rfl


/-- The retry loop never uses more attempts than it has fuel for. -/
theorem transcribeGo_attempts_le (w : Nat → WhisperOutcome) :
    ∀ (fuel attempt sleeps : Nat), 1 ≤ attempt →
      (transcribeGo w attempt sleeps fuel).attempts ≤ attempt + fuel - 1 := by
  intro fuel
  induction fuel with
  | zero => intro attempt sleeps h; simp [transcribeGo]
  | succ n ih =>
      intro attempt sleeps h
      rcases hwa : w attempt with msg | _ | ⟨text, dur⟩ <;>
        simp only [transcribeGo, hwa]
      · split
        · dsimp only; omega
        · have := ih (attempt + 1) (sleeps + 1) (by omega)
          omega
      · split
        · dsimp only; omega
        · have := ih (attempt + 1) sleeps (by omega)
          omega
      · split
        · dsimp only; omega
        · split
          · dsimp only; omega
          · have := ih (attempt + 1) sleeps (by omega)
            omega

/-- A successful result of the retry loop always carries a transcript longer
than 10 stripped characters: short results are never returned as success. -/
theorem transcribeGo_ok_long (w : Nat → WhisperOutcome) :
    ∀ (fuel attempt sleeps : Nat) (text : String) (dur : Option Int),
      (transcribeGo w attempt sleeps fuel).result = .ok (text, dur) →
      (pyStrip text).length > 10 := by
  intro fuel
  induction fuel with
  | zero => intro attempt sleeps text dur h; simp [transcribeGo] at h
  | succ n ih =>
      intro attempt sleeps text dur h
      rcases hwa : w attempt with msg | _ | ⟨t, d⟩ <;>
        simp only [transcribeGo, hwa] at h
      · split at h
        · simp at h
        · exact ih _ _ _ _ h
      · split at h
        · simp at h
        · exact ih _ _ _ _ h
      · split at h
        · rename_i hcond
          dsimp only at h
          simp only [Except.ok.injEq, Prod.mk.injEq] at h
          obtain ⟨rfl, rfl⟩ := h.1
          exact hcond.2
        · split at h
          · simp at h
          · exact ih _ _ _ _ h

/-- No backoff sleep is taken when no attempt raises an exception. -/
theorem transcribeGo_sleeps_of_no_err (w : Nat → WhisperOutcome)
    (hw : ∀ n msg, w n ≠ .err msg) :
    ∀ (fuel attempt sleeps : Nat), (transcribeGo w attempt sleeps fuel).sleeps = sleeps := by
  intro fuel
  induction fuel with
  | zero => intro attempt sleeps; rfl
  | succ n ih =>
      intro attempt sleeps
      rcases hwa : w attempt with msg | _ | ⟨t, d⟩ <;>
        simp only [transcribeGo, hwa]
      · exact absurd hwa (hw attempt msg)
      · split
        · rfl
        · exact ih (attempt + 1) sleeps
      · split
        · rfl
        · split
          · rfl
          · exact ih (attempt + 1) sleeps

set_option maxRecDepth 8000 in
/-- C6 (amended): the transcription step makes at most 3 attempts; a
transcript of at most 10 stripped characters is never returned as success;
the fixed 2-second backoff is taken only before retrying an attempt that
raised an exception (so none occur when no attempt raises — in particular not
between short-result retries); and with a 3-character result on all 3
attempts, the loop fails after exactly 3 attempts with a message referencing
"too short", which `process_call` turns into a FAILED call whose transcript
references "too short". -/
theorem transcription_retry_envelope :
    (∀ w : Nat → WhisperOutcome, (transcribeAudio w).attempts ≤ 3) ∧
    (∀ (w : Nat → WhisperOutcome) (text : String) (dur : Option Int),
      (transcribeAudio w).result = .ok (text, dur) → (pyStrip text).length > 10) ∧
    (∀ w : Nat → WhisperOutcome, (∀ n msg, w n ≠ .err msg) → (transcribeAudio w).sleeps = 0) ∧
    ((transcribeAudio envShortTranscript.whisper).attempts = 3 ∧
      (∃ msg, (transcribeAudio envShortTranscript.whisper).result = .error msg ∧
        strContains msg "too short" = true) ∧
      (processCall envShortTranscript freshCallDB).attempts = 3 ∧
      (processCall envShortTranscript freshCallDB).db.call.status = .failed ∧
      (∃ t, (processCall envShortTranscript freshCallDB).db.transcript = some t ∧
        strContains t "too short" = true)) := by
  refine ⟨fun w => transcribeGo_attempts_le w 3 1 0 (by omega),
    fun w text dur h => transcribeGo_ok_long w 3 1 0 text dur h,
    fun w hw => transcribeGo_sleeps_of_no_err w hw 3 1 0,
    rfl,
    ⟨"Transcription failed: Transcript too short (3 chars) - audio may be empty, silent, or unsupported format",
      rfl, by decide⟩,
    rfl, by decide,
    ⟨"Processing failed: Transcription failed: Transcript too short (3 chars) - audio may be empty, silent, or unsupported format",
      by decide, by decide⟩⟩

/-- Witness for C6 (amended), instantiating the universally quantified parts
at the short-transcript service. -/
theorem transcription_retry_envelope_witness :
    (transcribeAudio envShortTranscript.whisper).attempts ≤ 3 ∧
    (transcribeAudio envShortTranscript.whisper).sleeps = 0 :=
  ⟨transcription_retry_envelope.1 envShortTranscript.whisper,
   transcription_retry_envelope.2.2.1 envShortTranscript.whisper
     (fun n msg h => by simp [envShortTranscript] at h)⟩

/-! ## C1 — atomicity invariant -/

/-- An environment in which every transcription attempt raises. -/
def envTranscriptionFails : ProcEnv :=
  { apiKeyPresent := true
    whisper := fun _ => .err "connection timeout"
    llm := none
    eagerDuration := none
    finalDuration := none
    transcriptSaveOk := true
    transcriptRetrySaveOk := true
    transcriptRetryErrorMsg := "database error"
    insightsSaveOk := true
    emergencySaveOk := true
    filename := "call.mp3" }

/-- Counterexample to C1 as stated: after a failed processing run a
Transcript row exists (it holds the error message) while the call is FAILED,
so "a Transcript row exists ⟹ the call is PROCESSED" is false. -/
theorem transcript_exists_for_failed_call :
    (processCall envTranscriptionFails freshCallDB).db.transcript.isSome = true ∧
    (processCall envTranscriptionFails freshCallDB).db.call.status = .failed := by
  constructor <;> decide

/-- C1 (amended): after any `process_call` run on a call with no pre-existing
Insights row, the final state satisfies: the call is PROCESSED iff an Insights
row exists, iff the run returned success; whenever an Insights row exists,
`call.score` equals `insights.overall_score`; and a Transcript row exists
after **every** completed run, whether it succeeded or failed — so Transcript
existence does not imply PROCESSED. -/
theorem atomicity_invariant :
    ∀ (env : ProcEnv) (db0 : PipelineDB), db0.insights = none →
      (((processCall env db0).db.call.status = .processed) ↔
        (processCall env db0).db.insights.isSome = true) ∧
      (∀ rec, (processCall env db0).db.insights = some rec →
        (processCall env db0).db.call.score = some rec.overallScore) ∧
      (processCall env db0).db.transcript.isSome = true ∧
      (((processCall env db0).result.isOk = true) ↔
        (processCall env db0).db.call.status = .processed) := by
  intro env db0 h0
  unfold processCall
  split
  · simp [failHandler, h0, Except.isOk, Except.toBool]
  · dsimp only
    split
    · simp [failHandler, h0, Except.isOk, Except.toBool]
    · split
      · simp [failHandler, h0, Except.isOk, Except.toBool]
      · split
        · split
          · simp [h0, Except.isOk, Except.toBool]
          · split
            · simp [h0, Except.isOk, Except.toBool]
            · simp [failHandler, h0, Except.isOk, Except.toBool]
        · simp [failHandler, h0, Except.isOk, Except.toBool]

/-- A fully successful environment: long transcript on the first attempt,
every write succeeds (the LLM tier is down, so the fallback generator runs). -/
def envHappy : ProcEnv :=
  { apiKeyPresent := true
    whisper := fun _ =>
      .ok "Speaker 1: hello, thank you for joining the call today to discuss pricing." (some 120)
    llm := none
    eagerDuration := none
    finalDuration := none
    transcriptSaveOk := true
    transcriptRetrySaveOk := true
    transcriptRetryErrorMsg := "database error"
    insightsSaveOk := true
    emergencySaveOk := true
    filename := "call.mp3" }

/-- Witness for C1 (amended) at a successful concrete run. -/
theorem atomicity_invariant_witness :
    (((processCall envHappy freshCallDB).db.call.status = .processed) ↔
      (processCall envHappy freshCallDB).db.insights.isSome = true) ∧
    (∀ rec, (processCall envHappy freshCallDB).db.insights = some rec →
      (processCall envHappy freshCallDB).db.call.score = some rec.overallScore) ∧
    (processCall envHappy freshCallDB).db.transcript.isSome = true ∧
    (((processCall envHappy freshCallDB).result.isOk = true) ↔
      (processCall envHappy freshCallDB).db.call.status = .processed) :=
  atomicity_invariant envHappy freshCallDB rfl

/-! ## C3 — status transition discipline -/

/-- A FAILED call with no insights whose transcript text carries a generic
error message (one that does not contain the `"Transcription in progress"` or
`"Transcription failed"` markers `validate_insights_exist` looks for). -/
def failedNoInsightsDB : PipelineDB :=
  { call := { id := 7, status := .failed, score := none, duration := none }
    transcript := some "Processing failed: S3 download failed: NoSuchKey. Check AWS credentials and S3 bucket access."
    insights := none }

/-- Counterexample to C3 as stated: `validate_insights_exist` takes a FAILED
call (terminal state) and promotes it to PROCESSED, creating emergency
insights from the stored error transcript — the status regresses out of a
terminal state. -/
theorem validate_promotes_failed_to_processed :
    failedNoInsightsDB.call.status = .failed ∧
    (validateInsightsExist "call.mp3" failedNoInsightsDB).call.status = .processed ∧
    (validateInsightsExist "call.mp3" failedNoInsightsDB).insights.isSome = true := by
  refine ⟨rfl, ?_, ?_⟩ <;> decide

/-- C3 (amended): `process_call` itself only lands a call in PROCESSED or
FAILED; the out-of-band duration pass only ever promotes PROCESSING to
PROCESSED; and `validate_insights_exist` leaves PROCESSING calls and calls
that already have insights untouched — but terminal statuses are **not**
absorbing: as the counterexample shows, the validation pass can promote an
insights-less FAILED call whose transcript lacks the transcription-failure
markers back to PROCESSED. -/
theorem status_transition_discipline :
    (∀ (env : ProcEnv) (db0 : PipelineDB),
      (processCall env db0).db.call.status = .processed ∨
      (processCall env db0).db.call.status = .failed) ∧
    (∀ (d : Option Int) (db : PipelineDB),
      (finalDurationCheck d db).call.status = db.call.status ∨
      (db.call.status = .processing ∧ (finalDurationCheck d db).call.status = .processed)) ∧
    (∀ (fn : String) (db : PipelineDB),
      db.call.status = .processing → validateInsightsExist fn db = db) ∧
    (∀ (fn : String) (db : PipelineDB),
      db.insights.isSome = true → validateInsightsExist fn db = db) := by
  refine ⟨?_, ?_, ?_, ?_⟩
  · intro env db0
    unfold processCall
    split
    · simp [failHandler]
    · dsimp only
      split
      · simp [failHandler]
      · split
        · simp [failHandler]
        · split
          · split
            · simp
            · split
              · simp
              · simp [failHandler]
          · simp [failHandler]
  · intro d db
    by_cases hm : durationMissing db = true
    · rcases d with _ | v
      · simp only [finalDurationCheck, hm, if_true]
        exact Or.inl trivial
      · simp only [finalDurationCheck, hm, if_true]
        by_cases hv : v > 0
        · simp only [hv, if_true]
          by_cases hp : promoteEligible db = true
          · simp only [hp, if_true]
            right
            refine ⟨?_, trivial⟩
            simp only [promoteEligible, Bool.and_eq_true, decide_eq_true_eq] at hp
            exact hp.1.1
          · simp only [hp, if_false, Bool.false_eq_true]
            exact Or.inl trivial
        · simp only [hv, if_false]
          exact Or.inl trivial
    · simp only [finalDurationCheck, hm, if_false, Bool.false_eq_true]
      exact Or.inl trivial
  · intro fn db h
    unfold validateInsightsExist
    split
    · rfl
    · simp [h]
  · intro fn db h
    unfold validateInsightsExist
    simp [h]

/-- Witness for C3 (amended): the validation pass leaves a PROCESSING call
untouched. -/
theorem status_transition_discipline_witness :
    validateInsightsExist "call.mp3" freshCallDB = freshCallDB :=
  status_transition_discipline.2.2.1 "call.mp3" freshCallDB rfl

/-! ## Bounds predicates and lemmas for the insight tiers (C4, C5) -/

/-- Every documented 0-100 top-level score field is within [0,100],
`talk_time_ratio` within [0,1], `deal_probability` within [0,95]. -/
def ScoresInBounds (r : InsightsRecord) : Prop :=
  0 ≤ r.satisfactionScore ∧ r.satisfactionScore ≤ 100 ∧
  0 ≤ r.overallScore ∧ r.overallScore ≤ 100 ∧
  0 ≤ r.questionEffectiveness ∧ r.questionEffectiveness ≤ 100 ∧
  0 ≤ r.engagementScore ∧ r.engagementScore ≤ 100 ∧
  0 ≤ r.valuePropositionScore ∧ r.valuePropositionScore ≤ 100 ∧
  0 ≤ r.talkTimeRatio ∧ r.talkTimeRatio ≤ 1 ∧
  0 ≤ r.dealProbability ∧ r.dealProbability ≤ 95

/-- Every BANT sub-score is within [0,100]. -/
def BantInBounds (r : InsightsRecord) : Prop :=
  0 ≤ r.bantQualification.budget ∧ r.bantQualification.budget ≤ 100 ∧
  0 ≤ r.bantQualification.authority ∧ r.bantQualification.authority ≤ 100 ∧
  0 ≤ r.bantQualification.need ∧ r.bantQualification.need ≤ 100 ∧
  0 ≤ r.bantQualification.timeline ∧ r.bantQualification.timeline ≤ 100

/-- `max lo (min hi x)` lands in `[lo, hi]`. -/
theorem clamp_mem {α : Type} [LinearOrder α] (lo hi x : α) (h : lo ≤ hi) :
    lo ≤ max lo (min hi x) ∧ max lo (min hi x) ≤ hi :=
  ⟨le_max_left lo _, max_le h (min_le_left hi x)⟩

/-- The fallback engagement score is within [40,95]. -/
theorem fbEngagement_bounds (t : String) : 40 ≤ fbEngagement t ∧ fbEngagement t ≤ 95 := by
  simp only [fbEngagement]
  split_ifs <;> omega

/-- The fallback BANT sub-scores take values in {30,50,65,75,85,90}. -/
theorem fbBant_bounds (t : String) :
    0 ≤ (fbBant t).budget ∧ (fbBant t).budget ≤ 100 ∧
    0 ≤ (fbBant t).authority ∧ (fbBant t).authority ≤ 100 ∧
    0 ≤ (fbBant t).need ∧ (fbBant t).need ≤ 100 ∧
    0 ≤ (fbBant t).timeline ∧ (fbBant t).timeline ≤ 100 := by
  simp only [fbBant]
  split_ifs <;> norm_num

/-- The fallback deal probability is within [25,95]. -/
theorem fbDealProbability_bounds (t : String) :
    25 ≤ fbDealProbability t ∧ fbDealProbability t ≤ 95 := by
  simp only [fbDealProbability]
  split_ifs <;> omega

/-- The `s1/(s1+s2)` expression used for the talk-time ratio is within [0,1]. -/
theorem ratio_expr_bounds (s1 s2 : Nat) :
    0 ≤ (if s1 + s2 > 0 then (s1 : ℚ) / ((s1 : ℚ) + (s2 : ℚ)) else 0.5) ∧
    (if s1 + s2 > 0 then (s1 : ℚ) / ((s1 : ℚ) + (s2 : ℚ)) else 0.5) ≤ 1 := by
  split_ifs with ht
  · have hpos : (0 : ℚ) < (s1 : ℚ) + (s2 : ℚ) := by
      have hn : 0 < s1 + s2 := ht
      exact_mod_cast hn
    constructor
    · positivity
    · rw [div_le_one hpos]
      have h2 : (0 : ℚ) ≤ (s2 : ℚ) := by positivity
      linarith
  · norm_num

/-- The talk-time ratio coming out of the speaker analysis is within [0,1]. -/
theorem analyzeSpeakers_ratio_bounds (t : String) :
    0 ≤ (analyzeSpeakersInTranscript t).talkTimeRatio ∧
    (analyzeSpeakersInTranscript t).talkTimeRatio ≤ 1 := by
  unfold analyzeSpeakersInTranscript
  split_ifs with h1
  · dsimp only
    split_ifs with h2
    · rcases hl1 : lookupSpeakerLength
          ((parseSpeakerSegments t).foldl (fun st s => addSpeakerLength st s.1 s.2.length) [])
          "Speaker 1" with _ | s1 <;>
        rcases hl2 : lookupSpeakerLength
            ((parseSpeakerSegments t).foldl (fun st s => addSpeakerLength st s.1 s.2.length) [])
            "Speaker 2" with _ | s2 <;>
        simp only [hl1, hl2]
      · norm_num
      · norm_num
      · norm_num
      · exact ratio_expr_bounds s1 s2
    · norm_num
  · norm_num

/-- The fallback talk-time ratio is within [0,1]. -/
theorem fbTalkTimeRatio_bounds (t : String) :
    0 ≤ fbTalkTimeRatio t ∧ fbTalkTimeRatio t ≤ 1 := by
  have h := analyzeSpeakers_ratio_bounds t
  simp only [fbTalkTimeRatio]
  split_ifs <;> try norm_num
  exact h

/-- Completeness of a record: the summary and the required list fields are
populated and the enumerated string fields take one of their documented
values. -/
def RecordComplete (r : InsightsRecord) : Prop :=
  r.summary ≠ "" ∧ r.keyTopics ≠ [] ∧ r.improvementAreas ≠ [] ∧ r.actionItems ≠ [] ∧
  (r.commitmentLevel = "High" ∨ r.commitmentLevel = "Medium" ∨ r.commitmentLevel = "Low") ∧
  (r.conversationPace = "Fast" ∨ r.conversationPace = "Moderate" ∨ r.conversationPace = "Slow") ∧
  (r.followUpUrgency = "High" ∨ r.followUpUrgency = "Medium" ∨ r.followUpUrgency = "Low")

/-- A nonempty prefix slice of a nonempty string is nonempty. -/
theorem pyTake_ne_empty (s : String) (n : Nat) (hs : s ≠ "") (hn : n ≠ 0) :
    pyTake s n ≠ "" := by
  rcases s with ⟨ds⟩
  rcases ds with _ | ⟨c, cs⟩
  · exact absurd rfl hs
  · rcases n with _ | m
    · exact absurd rfl hn
    · intro h
      have hd := congrArg String.data h
      simp [pyTake] at hd

/-- The fallback summary string is never empty. -/
theorem fbSummary_ne_empty (t : String) : fbSummary t ≠ "" := by
  unfold fbSummary
  split_ifs with h1
  · decide
  · intro h
    have hd := congrArg String.data h
    by_cases h2 : 4 < (t.splitOn ".").length <;>
      simp [h2, String.data_append] at hd

/-- The fallback key-topics list is never empty. -/
theorem fbKeyTopics_ne_nil (t : String) : fbKeyTopics t ≠ [] := by
  unfold fbKeyTopics
  split_ifs with h
  · simp
  · exact h

/-- The fallback improvement-areas list is never empty. -/
theorem fbImprovementAreas_ne_nil (t : String) : fbImprovementAreas t ≠ [] := by
  unfold fbImprovementAreas
  split_ifs with h
  · simp
  · exact h

/-- The fallback action-items list is never empty. -/
theorem fbActionItems_ne_nil (t : String) : fbActionItems t ≠ [] := by
  unfold fbActionItems
  split_ifs with h
  · simp
  · exact h

/-- The enhanced fallback record is complete for every transcript. -/
theorem fallback_complete (t : String) :
    RecordComplete (generateEnhancedFallbackInsights t) := by
  unfold RecordComplete
  simp only [generateEnhancedFallbackInsights]
  refine ⟨?_, fbKeyTopics_ne_nil t, fbImprovementAreas_ne_nil t, fbActionItems_ne_nil t, ?_, ?_, ?_⟩
  · exact pyTake_ne_empty _ 600 (fbSummary_ne_empty t) (by norm_num)
  · split_ifs <;> simp
  · split_ifs <;> simp
  · split_ifs <;> simp

/-- The enhanced fallback record is fully in bounds (top-level scores and
BANT) for every transcript. -/
theorem fallback_in_bounds (t : String) :
    ScoresInBounds (generateEnhancedFallbackInsights t) ∧
    BantInBounds (generateEnhancedFallbackInsights t) := by
  have hsat := clamp_mem 15 95 (fbSatisfactionRaw t) (by norm_num)
  have hov := clamp_mem 15 95 (fbOverallRaw t) (by norm_num)
  have hqe := clamp_mem 35 90 (50 + (fbQuestionMarks t : Int) * 4) (by norm_num)
  have hvp := clamp_mem 35 90 (55 + (fbPositiveCount t : Int) * 4 - (fbNegativeCount t : Int) * 2) (by norm_num)
  have heng := fbEngagement_bounds t
  have httr := fbTalkTimeRatio_bounds t
  have hdp := fbDealProbability_bounds t
  have hb := fbBant_bounds t
  constructor
  · unfold ScoresInBounds
    simp only [generateEnhancedFallbackInsights]
    refine ⟨?_, ?_, ?_, ?_, ?_, ?_, ?_, ?_, ?_, ?_, ?_, ?_, ?_, ?_⟩
    · linarith [hsat.1]
    · linarith [hsat.2]
    · linarith [hov.1]
    · linarith [hov.2]
    · linarith [hqe.1]
    · linarith [hqe.2]
    · linarith [heng.1]
    · linarith [heng.2]
    · linarith [hvp.1]
    · linarith [hvp.2]
    · exact httr.1
    · exact httr.2
    · linarith [hdp.1]
    · exact hdp.2
  · unfold BantInBounds
    simp only [generateEnhancedFallbackInsights]
    exact hb

/-- The emergency-tier record is fully in bounds for every input. -/
theorem emergency_in_bounds (cid : Int) (fn t : String) :
    ScoresInBounds (createEmergencyInsights cid fn t) ∧
    BantInBounds (createEmergencyInsights cid fn t) := by
  have hsat := clamp_mem 20 90 (emergencySentimentBase t).2 (by norm_num)
  have hdp := clamp_mem 20 80 ((emergencySentimentBase t).2 + 10) (by norm_num)
  constructor
  · unfold ScoresInBounds
    simp only [createEmergencyInsights]
    refine ⟨?_, ?_, ?_, ?_, ?_, ?_, ?_, ?_, ?_, ?_, ?_, ?_, ?_, ?_⟩ <;>
      first
        | norm_num
        | linarith [hsat.1, hsat.2, hdp.1, hdp.2]
  · unfold BantInBounds
    simp only [createEmergencyInsights]
    norm_num

/-- Every top-level score field of a GPT-tier record is clamped in bounds
(the BANT dict is the one field that is not clamped). -/
theorem gpt_scores_in_bounds (raw : GptRawInsights) :
    ScoresInBounds (generateGptInsights raw) := by
  have h1 := clamp_mem 10 95 (raw.satisfactionScore.getD 50) (by norm_num)
  have h2 := clamp_mem 10 95 (raw.overallScore.getD 50) (by norm_num)
  have h3 := clamp_mem 30 90 (raw.questionEffectiveness.getD 50) (by norm_num)
  have h4 := clamp_mem 30 95 (raw.engagementScore.getD 60) (by norm_num)
  have h5 := clamp_mem 30 90 (raw.valuePropositionScore.getD 50) (by norm_num)
  have h6 := clamp_mem (0.1 : ℚ) 0.9 (raw.talkTimeRatio.getD 0.6) (by norm_num)
  have h7 := clamp_mem 10 95 (raw.dealProbability.getD 50) (by norm_num)
  unfold ScoresInBounds
  simp only [generateGptInsights]
  refine ⟨?_, ?_, ?_, ?_, ?_, ?_, ?_, ?_, ?_, ?_, ?_, ?_, ?_, ?_⟩ <;>
    first
      | linarith [h1.1, h1.2, h2.1, h2.2, h3.1, h3.2, h4.1, h4.2, h5.1, h5.2, h7.1, h7.2]
      | linarith [h6.1, h6.2]

/-! ## C4 — fallback totality -/

/-- C4: the insight generator with the primary tier unavailable is exactly the
deterministic enhanced fallback, a total Lean function of the transcript
string alone (no external dependency, cannot fail), and for **every** string
input — including `""`, 1-character and arbitrarily long strings — it returns
a complete record whose scores are all in bounds. -/
theorem fallback_totality :
    ∀ t : String,
      generateInsights none t = generateEnhancedFallbackInsights t ∧
      RecordComplete (generateEnhancedFallbackInsights t) ∧
      ScoresInBounds (generateEnhancedFallbackInsights t) ∧
      BantInBounds (generateEnhancedFallbackInsights t) :=
  fun t => ⟨rfl, fallback_complete t, (fallback_in_bounds t).1, (fallback_in_bounds t).2⟩

/-! ## C5 — per-tier bounds -/

/-- A parsed LLM response whose BANT budget value is 150. -/
def gptRawOutOfRangeBant : GptRawInsights :=
  { bantQualification := some ⟨150, 50, 50, 50⟩ }

/-- Counterexample to C5 as stated: the LLM tier clamps every top-level score
but passes `bant_qualification` through unclamped, so an out-of-range BANT
sub-score delivered by the LLM survives into the produced record. -/
theorem gpt_bant_escapes_bounds :
    (generateInsights (some gptRawOutOfRangeBant) "").bantQualification.budget = 150 ∧
    ¬ ((generateInsights (some gptRawOutOfRangeBant) "").bantQualification.budget ≤ 100) := by
  constructor
  · rfl
  · decide

/-- C5 (amended): every record produced by the fallback or emergency tier has
all documented score fields within [0,100], `talk_time_ratio` within [0,1],
`deal_probability` within [0,95], and BANT sub-scores within [0,100]; the
LLM-backed tier clamps all documented top-level fields into those bounds as
well, but its BANT sub-scores are passed through unclamped (see the
counterexample) and are therefore excluded. -/
theorem insights_bounds_by_tier :
    (∀ (raw : GptRawInsights) (t : String), ScoresInBounds (generateInsights (some raw) t)) ∧
    (∀ t : String, ScoresInBounds (generateInsights none t) ∧
      BantInBounds (generateInsights none t)) ∧
    (∀ (cid : Int) (fn t : String), ScoresInBounds (createEmergencyInsights cid fn t) ∧
      BantInBounds (createEmergencyInsights cid fn t)) :=
  ⟨fun raw _ => gpt_scores_in_bounds raw,
   fun t => fallback_in_bounds t,
   fun cid fn t => emergency_in_bounds cid fn t⟩

/-! ## C9 — lexicon-driven sentiment in the fallback tier -/

/-- A phrase of the list that occurs in the text contributes its full weight
to the count. -/
theorem weightedHits_ge (textLower : String) (w : Nat) (p : String) :
    ∀ ps : List String, p ∈ ps → strContains textLower p = true →
      w ≤ weightedHits textLower w ps := by
  intro ps
  induction ps with
  | nil => intro h; cases h
  | cons q qs ih =>
      intro hmem hc
      simp only [weightedHits]
      rcases List.mem_cons.mp hmem with rfl | hq
      · rw [hc]
        simp
      · have := ih hq hc
        omega

/-- C9: with the LLM tier unavailable, insights come from the deterministic
fallback, whose sentiment is derived purely from lexicon counts; any
transcript containing "yes", "great" and "interested" with no stronger
negative-lexicon weight is classified positive with satisfaction strictly
above 60. -/
theorem fallback_positive_sentiment :
    ∀ t : String,
      strContains (pyLower t) "yes" = true →
      strContains (pyLower t) "great" = true →
      strContains (pyLower t) "interested" = true →
      fbNegativeCount t < fbPositiveCount t →
      generateInsights none t = generateEnhancedFallbackInsights t ∧
      (generateEnhancedFallbackInsights t).sentiment = .positive ∧
      60 < (generateEnhancedFallbackInsights t).satisfactionScore := by
  intro t h1 h2 h3 hneg
  have hpos : 2 ≤ fbPositiveCount t :=
    weightedHits_ge (pyLower t) 2 "yes" fbPositiveIndicators (by decide) h1
  have hcond : fbPositiveCount t > fbNegativeCount t ∧ fbPositiveCount t > 0 :=
    ⟨hneg, by omega⟩
  refine ⟨rfl, ?_, ?_⟩
  · simp only [generateEnhancedFallbackInsights, fbSentiment, if_pos hcond]
  · simp only [generateEnhancedFallbackInsights]
    have hraw : 65 ≤ fbSatisfactionRaw t := by
      simp only [fbSatisfactionRaw, if_pos hcond]
      have hge : (0 : Int) ≤ (fbPositiveCount t : Int) := by positivity
      omega
    have h95 : fbSatisfactionRaw t ≤ 90 := by
      simp only [fbSatisfactionRaw, if_pos hcond]
      omega
    have : min 95 (fbSatisfactionRaw t) = fbSatisfactionRaw t := min_eq_right (by omega)
    rw [this]
    have := le_max_right (15 : Int) (fbSatisfactionRaw t)
    omega

/-- Witness for C9 at the fixture transcript `"yes great interested"`. -/
theorem fallback_positive_sentiment_witness :
    (generateEnhancedFallbackInsights "yes great interested").sentiment = .positive ∧
    60 < (generateEnhancedFallbackInsights "yes great interested").satisfactionScore :=
  ⟨(fallback_positive_sentiment "yes great interested"
      (by decide) (by decide) (by decide) (by decide)).2.1,
   (fallback_positive_sentiment "yes great interested"
      (by decide) (by decide) (by decide) (by decide)).2.2⟩

/-! ## C8 — speaker-change detector -/

/-- The cue disjunction exactly as the claim words it: time gap above 2s,
question lexicon on either segment, greeting lexicon on either segment,
short-response lexicon on the current segment, or current stripped text under
20 characters with a gap above 0.5s. -/
def SpecChangeCue (prev cur : Segment) : Prop :=
  cur.start - prev.«end» > 2 ∨
  isQuestionPattern cur.text = true ∨ isQuestionPattern prev.text = true ∨
  isGreetingPattern cur.text = true ∨ isGreetingPattern prev.text = true ∨
  isResponsePattern cur.text = true ∨
  ((pyStrip cur.text).length < 20 ∧ cur.start - prev.«end» > 0.5)

/-- Every label assigned by the analyzer is one of the two speaker labels. -/
theorem speakerLabel_mem (segs : List Segment) :
    ∀ i : Nat, speakerLabel segs i = "Speaker 1" ∨ speakerLabel segs i = "Speaker 2" := by
  intro i
  induction i with
  | zero =>
      simp only [speakerLabel]
      split_ifs <;> simp [flipSpeaker]
  | succ n ih =>
      simp only [speakerLabel]
      rcases ih with h | h <;> rw [h] <;> split_ifs <;> simp [flipSpeaker]

/-- Flipping a speaker label changes it. -/
theorem flipSpeaker_ne (s : String) (h : s = "Speaker 1" ∨ s = "Speaker 2") :
    flipSpeaker s ≠ s := by
  rcases h with rfl | rfl <;> decide

set_option maxHeartbeats 1000000 in
/-- C8: the first segment never triggers a change; the analyzer's label
alternates between exactly the two labels "Speaker 1"/"Speaker 2"; the label
changes from one segment to the next exactly when the detector fires; and for
every in-range non-first segment, the detector fires exactly when at least
one of the claimed cues holds between it and its predecessor. -/
theorem speaker_change_detector_spec :
    (∀ segs : List Segment, detectSpeakerChange segs 0 = false) ∧
    (∀ (segs : List Segment) (i : Nat),
      speakerLabel segs i = "Speaker 1" ∨ speakerLabel segs i = "Speaker 2") ∧
    (∀ (segs : List Segment) (i : Nat),
      speakerLabel segs (i + 1) ≠ speakerLabel segs i ↔
        detectSpeakerChange segs (i + 1) = true) ∧
    (∀ (segs : List Segment) (i : Nat) (hi : i < segs.length), i ≠ 0 →
      (detectSpeakerChange segs i = true ↔
        SpecChangeCue (segs.get ⟨i - 1, by omega⟩) (segs.get ⟨i, hi⟩))) := by
  refine ⟨?_, ?_, ?_, ?_⟩
  · intro segs
    simp [detectSpeakerChange]
  · exact fun segs i => speakerLabel_mem segs i
  · intro segs i
    rcases h : detectSpeakerChange segs (i + 1) with _ | _
    · have hl : speakerLabel segs (i + 1) = speakerLabel segs i := by
        simp [speakerLabel, h]
      simp [hl, h]
    · have hl : speakerLabel segs (i + 1) = flipSpeaker (speakerLabel segs i) := by
        simp [speakerLabel, h]
      rw [hl]
      simp only [eq_self_iff_true, iff_true]
      exact flipSpeaker_ne _ (speakerLabel_mem segs i)
  · intro segs i hi h0
    have hi1 : i - 1 < segs.length := by omega
    have e1 : segs[i]? = some (segs.get ⟨i, hi⟩) := by
      rw [List.getElem?_eq_getElem hi]
      rfl
    have e2 : segs[i - 1]? = some (segs.get ⟨i - 1, hi1⟩) := by
      rw [List.getElem?_eq_getElem hi1]
      rfl
    unfold detectSpeakerChange
    rw [if_neg h0, e1, e2]
    simp only [SpecChangeCue, Bool.or_eq_true, decide_eq_true_eq, Bool.and_eq_true]
    tauto

/-- Concrete two-segment transcript for the C8 witness. -/
def segsWitness : List Segment :=
  [⟨0, 1, "hello"⟩, ⟨1.2, 2, "yes"⟩]

/-- Witness for C8 at a concrete segment pair. -/
theorem speaker_change_detector_spec_witness :
    detectSpeakerChange segsWitness 1 = true ↔
      SpecChangeCue (segsWitness.get ⟨0, by decide⟩) (segsWitness.get ⟨1, by decide⟩) :=
  speaker_change_detector_spec.2.2.2 segsWitness 1 (by decide) (by decide)
